import Mathlib

/-!
Shallow embedding of the Guildie guild-operations backend core:
the attendance-driven DKP ledger, the weekly recurrence generator,
the wish-ranking read path and the admin role routes.

Data is modelled as in the Prisma schema (`prisma/migrations`): records are
rows in lists, composite keys `(eventId, characterId)` / `(characterId, itemId)`
are primary keys with foreign keys to the parent tables.  Database methods are
translated from the `PrismaDatabase` class; route handlers from the express
routers in `src/routes`.  Fallible database calls return `Except DbError`;
the HTTP status codes of the routes are kept in the `ApiResult` constructors.
Timestamps are integer milliseconds (fixed-offset clock, as on a UTC server).
-/

/-- Character activity status, from the `Active` enum of the schema. -/
inductive ActiveStatus where
  | ACTIVE
  | NOT_ACTIVE
deriving DecidableEq, Repr

/-- Guild role, from the `Role` enum of the schema. -/
inductive Role where
  | MEMBER
  | OFFICER
  | ADMIN
deriving DecidableEq, Repr

/-- A `characters` row (the fields the core reads: id, owner, dkp, status). -/
structure Character where
  id : Nat
  userId : Nat
  name : String
  dkp : Int
  active : ActiveStatus
deriving DecidableEq, Repr

/-- An `events` row. -/
structure Event where
  id : Nat
  title : String
  startTime : Nat
  endTime : Nat
  dkpReward : Int
deriving DecidableEq, Repr

/-- An `items` row. -/
structure Item where
  id : Nat
  name : String
  minDkpCost : Int
deriving DecidableEq, Repr

/-- An `attendances` row; `(eventId, characterId)` is the primary key. -/
structure Attendance where
  eventId : Nat
  characterId : Nat
deriving DecidableEq, Repr

/-- A `wishes` row; `(characterId, itemId)` is the primary key. -/
structure Wish where
  characterId : Nat
  itemId : Nat
deriving DecidableEq, Repr

/-- A `users` row (the fields the core reads). -/
structure GUser where
  id : Nat
  role : Role
deriving DecidableEq, Repr

/-- The relational store the routes operate on. -/
structure GuildState where
  users : List GUser
  characters : List Character
  events : List Event
  items : List Item
  attendances : List Attendance
  wishes : List Wish
deriving DecidableEq, Repr

/-- The authenticated principal attached to a request (`req.user`). -/
structure Auth where
  userId : Nat
  role : Role
deriving DecidableEq, Repr

/-- Failure modes of a Prisma call: violated unique constraint, violated
foreign key, or record-to-update not found. -/
inductive DbError where
  | uniqueViolation
  | fkViolation
  | recordNotFound
deriving DecidableEq, Repr

/-- A route response: the payload of the 2xx branch, or the error branch with
the HTTP status the source sends (400 / 403 / 404 / 409 / 500). -/
inductive ApiResult (α : Type) where
  | ok (val : α)
  | badRequest (msg : String)
  | forbidden (msg : String)
  | notFound (msg : String)
  | conflict (msg : String)
  | serverError (msg : String)
deriving DecidableEq, Repr

/-- Method `getEventById`: `prisma.event.findUnique({ where: { id: eventId } })`. -/
def PrismaDatabase.getEventById (s : GuildState) (eventId : Nat) : Option Event :=
  s.events.find? (fun e => e.id == eventId)

/-- Method `getCharacterById(characterId, userId)`: `findFirst` over id and owner, so a
user can only access their own characters. -/
def PrismaDatabase.getCharacterById (s : GuildState) (characterId userId : Nat) :
    Option Character :=
  s.characters.find? (fun c => c.id == characterId && c.userId == userId)

/-- Method `getCharacterByIdAdmin`: `findUnique` by id alone. -/
def PrismaDatabase.getCharacterByIdAdmin (s : GuildState) (characterId : Nat) :
    Option Character :=
  s.characters.find? (fun c => c.id == characterId)

/-- Method `getItemById`: `prisma.item.findUnique({ where: { id: itemId } })`. -/
def PrismaDatabase.getItemById (s : GuildState) (itemId : Nat) : Option Item :=
  s.items.find? (fun i => i.id == itemId)

/-- Method `checkAttendanceExists`: `findUnique` on the composite key, coerced to Bool. -/
def PrismaDatabase.checkAttendanceExists (s : GuildState) (eventId characterId : Nat) :
    Bool :=
  s.attendances.any (fun a => a.eventId == eventId && a.characterId == characterId)

/-- Method `addAttendance`: `prisma.attendance.create`.  The insert throws on a
duplicate composite key and on a missing event/character (the schema declares
both foreign keys); otherwise the row is appended. -/
def PrismaDatabase.addAttendance (s : GuildState) (eventId characterId : Nat) :
    Except DbError GuildState :=
  if PrismaDatabase.checkAttendanceExists s eventId characterId then
    .error .uniqueViolation
  else if !(s.events.any (fun e => e.id == eventId)) then
    .error .fkViolation
  else if !(s.characters.any (fun c => c.id == characterId)) then
    .error .fkViolation
  else
    .ok { s with attendances := s.attendances ++ [⟨eventId, characterId⟩] }

/-- Method `removeAttendance`: `prisma.attendance.delete` on the composite key inside a
try/catch returning whether a row was deleted. -/
def PrismaDatabase.removeAttendance (s : GuildState) (eventId characterId : Nat) :
    Bool × GuildState :=
  if PrismaDatabase.checkAttendanceExists s eventId characterId then
    (true, { s with attendances :=
      s.attendances.filter (fun a => !(a.eventId == eventId && a.characterId == characterId)) })
  else
    (false, s)

/-- Method `updateCharacterDkp`: `prisma.character.update` with `dkp: { increment: dkpChange } }`;
throws when no character has the id. -/
def PrismaDatabase.updateCharacterDkp (s : GuildState) (characterId : Nat) (dkpChange : Int) :
    Except DbError GuildState :=
  if s.characters.any (fun c => c.id == characterId) then
    .ok { s with characters := s.characters.map (fun c =>
      if c.id == characterId then { c with dkp := c.dkp + dkpChange } else c) }
  else
    .error .recordNotFound

/-- Method `checkWishExists`: `findUnique` on the composite key, coerced to Bool. -/
def PrismaDatabase.checkWishExists (s : GuildState) (characterId itemId : Nat) : Bool :=
  s.wishes.any (fun w => w.characterId == characterId && w.itemId == itemId)

/-- Method `createWish`: `prisma.wish.create`; throws on a duplicate composite key and
on a missing character/item (both foreign keys are declared). -/
def PrismaDatabase.createWish (s : GuildState) (characterId itemId : Nat) :
    Except DbError GuildState :=
  if PrismaDatabase.checkWishExists s characterId itemId then
    .error .uniqueViolation
  else if !(s.characters.any (fun c => c.id == characterId)) then
    .error .fkViolation
  else if !(s.items.any (fun i => i.id == itemId)) then
    .error .fkViolation
  else
    .ok { s with wishes := s.wishes ++ [⟨characterId, itemId⟩] }

/-- A `wishes` row joined to its character, as `getItemWishes` returns with
`include: { character: ... } }` (rows whose character is missing cannot be
produced by the join). -/
structure ItemWish where
  characterId : Nat
  itemId : Nat
  character : Character
deriving DecidableEq, Repr

/-- Method `getItemWishes`: `prisma.wish.findMany({ where: { itemId } })` including
each wish's character. -/
def PrismaDatabase.getItemWishes (s : GuildState) (itemId : Nat) : List ItemWish :=
  (s.wishes.filter (fun w => w.itemId == itemId)).filterMap (fun w =>
    (PrismaDatabase.getCharacterByIdAdmin s w.characterId).map (fun c =>
      { characterId := w.characterId, itemId := w.itemId, character := c }))

/-- Method `updateEvent`, restricted to the `dkpReward` field of `updateData` (the only
field this development's claims touch); `prisma.event.update` throws when no
event has the id, else returns the updated row. -/
def PrismaDatabase.updateEvent (s : GuildState) (eventId : Nat) (dkpReward : Int) :
    Except DbError (Event × GuildState) :=
  match s.events.find? (fun e => e.id == eventId) with
  | none => .error .recordNotFound
  | some e =>
    let updated := { e with dkpReward := dkpReward }
    .ok (updated, { s with events := s.events.map (fun e' =>
      if e'.id == eventId then { e' with dkpReward := dkpReward } else e') })

/-- Method `updateCharacter`, restricted to the `active` field of `updateData` (the only
field this development's claims touch): `updateMany` over id and owner, then a
re-read, returning `none` when no row matched. -/
def PrismaDatabase.updateCharacter (s : GuildState) (characterId userId : Nat)
    (active : ActiveStatus) : Option Character × GuildState :=
  if s.characters.any (fun c => c.id == characterId && c.userId == userId) then
    let s1 := { s with characters := s.characters.map (fun c =>
      if c.id == characterId && c.userId == userId then { c with active := active } else c) }
    (PrismaDatabase.getCharacterById s1 characterId userId, s1)
  else
    (none, s)

/-- Method `updateUserRole`: `prisma.user.update({ where: { id }, data: { role } })`;
throws when no user has the id, else returns the updated row. -/
def PrismaDatabase.updateUserRole (s : GuildState) (userId : Nat) (role : Role) :
    Except DbError (GUser × GuildState) :=
  match s.users.find? (fun u => u.id == userId) with
  | none => .error .recordNotFound
  | some u =>
    .ok ({ u with role := role }, { s with users := s.users.map (fun u' =>
      if u'.id == userId then { u' with role := role } else u') })

/-- Method `demoteUser`: read the user, step ADMIN to OFFICER or OFFICER to MEMBER,
`null` when already MEMBER or the user is missing. -/
def PrismaDatabase.demoteUser (s : GuildState) (userId : Nat) :
    Option (GUser × GuildState) :=
  match s.users.find? (fun u => u.id == userId) with
  | none => none
  | some u =>
    match u.role with
    | .ADMIN =>
      match PrismaDatabase.updateUserRole s userId .OFFICER with
      | .ok r => some r
      | .error _ => none
    | .OFFICER =>
      match PrismaDatabase.updateUserRole s userId .MEMBER with
      | .ok r => some r
      | .error _ => none
    | .MEMBER => none

/-- Route `POST /api/attendance` (attendance.ts router.post).  Control flow of the
handler: falsy-id and parse validation, event lookup, character
lookup with the Officer/Admin bypass, duplicate check, then `addAttendance`
followed by a second, separate `updateCharacterDkp` write when the event has a
positive reward.  The two writes are not wrapped in a transaction: the second
database call is an independent round trip and can fail after the first
committed, which `dkpWriteOk = false` models; the handler's catch block then
answers 500 with the attendance row already inserted.  The payload of `ok` is
`dkpAwarded`. -/
def recordAttendanceWith (dkpWriteOk : Bool) (s : GuildState) (actor : Auth)
    (eventId characterId : Nat) : ApiResult Int × GuildState :=
  if eventId == 0 || characterId == 0 then
    (.badRequest "Event ID and Character ID are required", s)
  else
    match PrismaDatabase.getEventById s eventId with
    | none => (.notFound "Event not found", s)
    | some event =>
      let character := PrismaDatabase.getCharacterById s characterId actor.userId
      if character.isNone && actor.role != Role.ADMIN && actor.role != Role.OFFICER then
        (.notFound "Character not found or access denied", s)
      else if PrismaDatabase.checkAttendanceExists s eventId characterId then
        (.conflict "Attendance record already exists for this event and character", s)
      else
        match PrismaDatabase.addAttendance s eventId characterId with
        | .error _ => (.serverError "Failed to record attendance", s)
        | .ok s1 =>
          if event.dkpReward > 0 then
            if dkpWriteOk then
              match PrismaDatabase.updateCharacterDkp s1 characterId event.dkpReward with
              | .error _ => (.serverError "Failed to record attendance", s1)
              | .ok s2 => (.ok event.dkpReward, s2)
            else (.serverError "Failed to record attendance", s1)
          else (.ok event.dkpReward, s1)

/-- Operation `recordAttendance`: the fault-free run of `POST /api/attendance`. -/
def recordAttendance : GuildState → Auth → Nat → Nat → ApiResult Int × GuildState :=
  recordAttendanceWith true

/-- Route `DELETE /api/attendance` (attendance.ts router.delete): validation,
character lookup with the Officer/Admin bypass, existence check of the row,
event lookup for the reversal amount, row deletion, then a separate
`updateCharacterDkp` debit of the event's current reward when positive.
The payload of `ok` is `dkpReversed` (`event?.dkpReward || 0`). -/
def removeAttendance (s : GuildState) (actor : Auth) (eventId characterId : Nat) :
    ApiResult Int × GuildState :=
  if eventId == 0 || characterId == 0 then
    (.badRequest "Event ID and Character ID are required", s)
  else
    let character := PrismaDatabase.getCharacterById s characterId actor.userId
    if character.isNone && actor.role != Role.ADMIN && actor.role != Role.OFFICER then
      (.notFound "Character not found or access denied", s)
    else if !(PrismaDatabase.checkAttendanceExists s eventId characterId) then
      (.notFound "Attendance record not found", s)
    else
      let event := PrismaDatabase.getEventById s eventId
      let removed := PrismaDatabase.removeAttendance s eventId characterId
      if !removed.1 then (.serverError "Failed to remove attendance", removed.2)
      else
        match event with
        | some e =>
          if e.dkpReward > 0 then
            match PrismaDatabase.updateCharacterDkp removed.2 characterId (-e.dkpReward) with
            | .error _ => (.serverError "Failed to remove attendance", removed.2)
            | .ok s2 => (.ok e.dkpReward, s2)
          else (.ok e.dkpReward, removed.2)
        | none => (.ok 0, removed.2)

/-- One entry of the bulk route's `successful` array. -/
structure BulkItemOk where
  characterId : Nat
  dkpAwarded : Int
deriving DecidableEq, Repr

/-- One entry of the bulk route's `failed` array; `characterId` is `none` when
`parseInt` produced NaN (the source then echoes the raw value). -/
structure BulkItemErr where
  characterId : Option Nat
  error : String
deriving DecidableEq, Repr

/-- The bulk route's 201 payload: the partition and `summary.total`
(`summary.successful` / `summary.failed` are the lengths of the two arrays). -/
structure BulkOutcome where
  successful : List BulkItemOk
  failed : List BulkItemErr
  total : Nat
deriving DecidableEq, Repr

/-- One iteration of the bulk route's for-loop over `characterIds`: an
unparsable id or a duplicate row or a thrown insert appends a failure entry and
continues; otherwise the row is inserted, the reward credited when positive,
and a success entry appended. -/
def bulkStep (eventId : Nat) (event : Event)
    (acc : List BulkItemOk × List BulkItemErr × GuildState) (cid : Option Nat) :
    List BulkItemOk × List BulkItemErr × GuildState :=
  let results := acc.1
  let errors := acc.2.1
  let s := acc.2.2
  match cid with
  | none => (results, errors ++ [⟨none, "Invalid character ID"⟩], s)
  | some characterIdNum =>
    if PrismaDatabase.checkAttendanceExists s eventId characterIdNum then
      (results, errors ++ [⟨some characterIdNum, "Attendance already exists"⟩], s)
    else
      match PrismaDatabase.addAttendance s eventId characterIdNum with
      | .error _ =>
        (results, errors ++ [⟨some characterIdNum, "Failed to record attendance"⟩], s)
      | .ok s1 =>
        if event.dkpReward > 0 then
          match PrismaDatabase.updateCharacterDkp s1 characterIdNum event.dkpReward with
          | .error _ =>
            (results, errors ++ [⟨some characterIdNum, "Failed to record attendance"⟩], s1)
          | .ok s2 =>
            (results ++ [⟨characterIdNum, event.dkpReward⟩], errors, s2)
        else
          (results ++ [⟨characterIdNum, event.dkpReward⟩], errors, s1)

/-- Route `POST /api/attendance/bulk` (attendance.ts router.post bulk), behind
`requireOfficerOrAdmin`: validation, event lookup, then the per-item loop; the
route always answers 201 once the event resolved, with per-item failures as
data.  An element `none` of `characterIds` stands for an entry whose
`parseInt` is NaN. -/
def recordAttendanceBulk (s : GuildState) (actor : Auth) (eventId : Nat)
    (characterIds : List (Option Nat)) : ApiResult BulkOutcome × GuildState :=
  if actor.role != Role.OFFICER && actor.role != Role.ADMIN then
    (.forbidden "Insufficient permissions", s)
  else if eventId == 0 || characterIds.isEmpty then
    (.badRequest "Event ID and array of character IDs are required", s)
  else
    match PrismaDatabase.getEventById s eventId with
    | none => (.notFound "Event not found", s)
    | some event =>
      let r := characterIds.foldl (bulkStep eventId event) ([], [], s)
      (.ok { successful := r.1, failed := r.2.1, total := characterIds.length }, r.2.2)

/-- One entry of the ranked wishes array of `GET /api/wish/item/:itemId`:
the joined character and its `canAfford` flag. -/
structure RankEntry where
  character : Character
  canAfford : Bool
deriving DecidableEq, Repr

/-- The 200 payload of `GET /api/wish/item/:itemId`. -/
structure RankOutput where
  wishes : List RankEntry
  totalWishes : Nat
  eligibleWishes : Nat
deriving DecidableEq, Repr

/-- The eligibility predicate of the route's `eligibleWishes` filter:
`wish.character.active === ACTIVE && wish.character.dkp >= item.minDkpCost`. -/
def eligibleWish (item : Item) (w : ItemWish) : Bool :=
  w.character.active == ActiveStatus.ACTIVE && item.minDkpCost ≤ w.character.dkp

/-- Route `GET /api/wish/item/:itemId` (the wish router): item lookup, fetch of the
item's wishes joined to characters, in-memory sort descending by character dkp
(`(a, b) => b.character.dkp - a.character.dkp`, a stable sort), per-entry
`canAfford`, and the `eligibleWishes` count. -/
def rankWishers (s : GuildState) (itemId : Nat) : ApiResult RankOutput :=
  match PrismaDatabase.getItemById s itemId with
  | none => .notFound "Item not found"
  | some item =>
    let wishes := PrismaDatabase.getItemWishes s itemId
    let sortedWishes := wishes.mergeSort (fun a b => b.character.dkp ≤ a.character.dkp)
    .ok {
      wishes := sortedWishes.map (fun w =>
        { character := w.character, canAfford := item.minDkpCost ≤ w.character.dkp }),
      totalWishes := wishes.length,
      eligibleWishes := (wishes.filter (eligibleWish item)).length }

/-- Route `POST /api/wish` (the wish router): validation, strict ownership lookup of
the character (no admin bypass), the active-status guard, item lookup,
duplicate check, then the insert. -/
def postWish (s : GuildState) (actor : Auth) (characterId itemId : Nat) :
    ApiResult Unit × GuildState :=
  if characterId == 0 || itemId == 0 then
    (.badRequest "Character ID and Item ID are required", s)
  else
    match PrismaDatabase.getCharacterById s characterId actor.userId with
    | none => (.notFound "Character not found or access denied", s)
    | some character =>
      if character.active != ActiveStatus.ACTIVE then
        (.badRequest "Only active characters can make wishes", s)
      else
        match PrismaDatabase.getItemById s itemId with
        | none => (.notFound "Item not found", s)
        | some _ =>
          if PrismaDatabase.checkWishExists s characterId itemId then
            (.conflict "Character already wishes for this item", s)
          else
            match PrismaDatabase.createWish s characterId itemId with
            | .error _ => (.serverError "Failed to create wish", s)
            | .ok s1 => (.ok (), s1)

/-- Route `PUT /api/admin/users/:userId/role` (admin.ts), behind `requireAdmin`.
`role = none` stands for a body role outside MEMBER/OFFICER/ADMIN.  The
self-demotion guard answers 400 before any write. -/
def updateUserRoleRoute (s : GuildState) (actor : Auth) (userId : Nat)
    (role : Option Role) : ApiResult Role × GuildState :=
  if actor.role != Role.ADMIN then
    (.forbidden "Insufficient permissions", s)
  else
    match role with
    | none => (.badRequest "Invalid role. Must be MEMBER, OFFICER, or ADMIN", s)
    | some r =>
      if actor.userId == userId && actor.role == Role.ADMIN && r != Role.ADMIN then
        (.badRequest "Cannot demote yourself from admin role", s)
      else
        match PrismaDatabase.updateUserRole s userId r with
        | .error _ => (.serverError "Failed to update user role", s)
        | .ok (u, s1) => (.ok u.role, s1)

/-- Route `POST /api/admin/users/:userId/demote` (admin.ts), behind `requireAdmin`;
the self-demotion guard answers 400 before any write. -/
def demoteUserRoute (s : GuildState) (actor : Auth) (userId : Nat) :
    ApiResult Role × GuildState :=
  if actor.role != Role.ADMIN then
    (.forbidden "Insufficient permissions", s)
  else if actor.userId == userId && actor.role == Role.ADMIN then
    (.badRequest "Cannot demote yourself from admin role", s)
  else
    match PrismaDatabase.demoteUser s userId with
    | none => (.badRequest "User not found or cannot be demoted further", s)
    | some (u, s1) => (.ok u.role, s1)

/-- Route `PUT /api/event/:id` (event.ts) with a body containing only `dkpReward`:
event lookup, the start-before-end check over the existing times, the
non-negative reward check, then the field update. -/
def updateEventRoute (s : GuildState) (eventId : Nat) (dkpReward : Int) :
    ApiResult Event × GuildState :=
  match PrismaDatabase.getEventById s eventId with
  | none => (.notFound "Event not found", s)
  | some existingEvent =>
    if existingEvent.endTime ≤ existingEvent.startTime then
      (.badRequest "Start time must be before end time", s)
    else if dkpReward < 0 then
      (.badRequest "DKP reward must be a non-negative number", s)
    else
      match PrismaDatabase.updateEvent s eventId dkpReward with
      | .error _ => (.serverError "Failed to update event", s)
      | .ok (e, s1) => (.ok e, s1)

/-- Milliseconds per day. -/
def msPerDay : Nat := 86400000

/-- Value of `Date.getDay()` for a millisecond timestamp on a fixed-offset (UTC) clock:
day 0 of the epoch is a Thursday, so weekday 4. -/
def getDay (t : Nat) : Nat := (t / msPerDay + 4) % 7

/-- The event template handed to the recurrence generator. -/
structure EventData where
  title : String
  description : Option String
  startTime : Nat
  endTime : Nat
  dkpReward : Int
deriving DecidableEq, Repr

/-- A weekly recurrence rule (`type: weekly` is the only type). -/
structure Recurrence where
  interval : Nat
  dayOfWeek : Nat
  occurrences : Nat
deriving DecidableEq, Repr

/-- Local `daysUntilTarget` of `generateRecurringEvents`:
`(recurrence.dayOfWeek - currentDayOfWeek + 7) % 7` (the operands are in 0..6,
so the JS remainder agrees with the Nat one written without underflow). -/
def daysUntilTarget (eventData : EventData) (recurrence : Recurrence) : Nat :=
  (recurrence.dayOfWeek + 7 - getDay eventData.startTime) % 7

/-- Local `firstOccurrence` of `generateRecurringEvents`: the template's start shifted
forward to the first date whose weekday is `dayOfWeek`. -/
def firstOccurrenceStart (eventData : EventData) (recurrence : Recurrence) : Nat :=
  eventData.startTime + daysUntilTarget eventData recurrence * msPerDay

/-- Function `generateRecurringEvents` (event.ts): occurrence `i` starts
`i * 7 * interval` days after the first occurrence, keeps the template's
duration, and gets a week-marker title suffix for `i > 0`. -/
def generateRecurringEvents (eventData : EventData) (recurrence : Recurrence) :
    List EventData :=
  let duration := eventData.endTime - eventData.startTime
  let firstOccurrence := firstOccurrenceStart eventData recurrence
  (List.range recurrence.occurrences).map (fun i =>
    let eventStart := firstOccurrence + i * 7 * recurrence.interval * msPerDay
    let eventEnd := eventStart + duration
    { title := eventData.title ++
        (if i > 0 then " (Week " ++ toString (i + 1) ++ ")" else ""),
      description := eventData.description,
      startTime := eventStart,
      endTime := eventEnd,
      dkpReward := eventData.dkpReward })

theorem find?_map_pres {α : Type} (f : α → α) (p q : α → Bool)
    (h : ∀ x, p (f x) = q x) (l : List α) :
    (l.map f).find? p = (l.find? q).map f := by
  induction l with
  | nil => rfl
  | cons a t ih =>
    by_cases ha : q a
    · simp [List.find?, h a, ha]
    · simp only [List.map_cons, List.find?, h a]
      rw [Bool.not_eq_true] at ha
      simp [ha, ih]

theorem find?_of_and {α : Type} (p q : α → Bool) (l : List α) (a : α)
    (h : l.find? p = some a) (hq : q a = true) :
    l.find? (fun x => p x && q x) = some a := by
  induction l with
  | nil => simp at h
  | cons b t ih =>
    by_cases hb : p b
    · rw [List.find?_cons_of_pos _ hb] at h
      injection h with h
      subst h
      exact List.find?_cons_of_pos _ (by simp [hb, hq])
    · rw [Bool.not_eq_true] at hb
      rw [List.find?_cons_of_neg _ (by simp [hb])] at h ⊢
      exact ih h

/-- Updating one character's dkp commutes with looking that character up. -/
theorem lookupAdmin_updateDkp (cs : List Character) (cid : Nat) (d : Int) :
    (cs.map (fun x => if x.id == cid then { x with dkp := x.dkp + d } else x)).find?
        (fun x => x.id == cid)
      = (cs.find? (fun x => x.id == cid)).map (fun x => { x with dkp := x.dkp + d }) := by
  have h : ∀ x : Character,
      ((if x.id == cid then { x with dkp := x.dkp + d } else x).id == cid) = (x.id == cid) := by
    intro x
    cases hx : x.id == cid <;> simp [hx]
  rw [find?_map_pres _ _ _ h]
  cases hfind : cs.find? (fun x => x.id == cid) with
  | none => rfl
  | some a =>
    have ha := List.find?_some hfind
    show some (if a.id == cid then { a with dkp := a.dkp + d } else a)
      = some { a with dkp := a.dkp + d }
    rw [if_pos ha]

/-- Updating one character's dkp leaves lookups of other ids unchanged. -/
theorem lookupAdmin_updateDkp_other (cs : List Character) (cid cid' : Nat) (d : Int)
    (hne : cid' ≠ cid) :
    (cs.map (fun x => if x.id == cid then { x with dkp := x.dkp + d } else x)).find?
        (fun x => x.id == cid')
      = cs.find? (fun x => x.id == cid') := by
  have h : ∀ x : Character,
      ((if x.id == cid then { x with dkp := x.dkp + d } else x).id == cid') = (x.id == cid') := by
    intro x
    cases hx : x.id == cid <;> simp [hx]
  rw [find?_map_pres _ _ _ h]
  cases hfind : cs.find? (fun x => x.id == cid') with
  | none => rfl
  | some a =>
    have ha := List.find?_some hfind
    show some (if a.id == cid then { a with dkp := a.dkp + d } else a) = some a
    rw [if_neg]
    simp only [beq_iff_eq] at ha ⊢
    omega

/-- Lookup by owner after the dkp update of the same character. -/
theorem lookupOwner_updateDkp (cs : List Character) (cid uid : Nat) (d : Int) :
    (cs.map (fun x => if x.id == cid then { x with dkp := x.dkp + d } else x)).find?
        (fun x => x.id == cid && x.userId == uid)
      = (cs.find? (fun x => x.id == cid && x.userId == uid)).map
          (fun x => { x with dkp := x.dkp + d }) := by
  have h : ∀ x : Character,
      ((if x.id == cid then { x with dkp := x.dkp + d } else x).id == cid &&
        (if x.id == cid then { x with dkp := x.dkp + d } else x).userId == uid)
        = (x.id == cid && x.userId == uid) := by
    intro x
    cases hx : x.id == cid <;> simp [hx]
  rw [find?_map_pres _ _ _ h]
  cases hfind : cs.find? (fun x => x.id == cid && x.userId == uid) with
  | none => rfl
  | some a =>
    have ha := List.find?_some hfind
    simp only [Bool.and_eq_true] at ha
    show some (if a.id == cid then { a with dkp := a.dkp + d } else a)
      = some { a with dkp := a.dkp + d }
    rw [if_pos ha.1]

/-- An element found by id witnesses `List.any` by id. -/
theorem any_id_of_lookup (cs : List Character) (cid : Nat) (ch : Character)
    (h : cs.find? (fun x => x.id == cid) = some ch) :
    cs.any (fun x => x.id == cid) = true := by
  have hp := List.find?_some h
  exact List.any_eq_true.mpr ⟨ch, List.mem_of_find?_eq_some h, hp⟩

theorem any_event_of_lookup (es : List Event) (eid : Nat) (ev : Event)
    (h : es.find? (fun x => x.id == eid) = some ev) :
    es.any (fun x => x.id == eid) = true := by
  have hp := List.find?_some h
  exact List.any_eq_true.mpr ⟨ev, List.mem_of_find?_eq_some h, hp⟩

/-- The state a successful `POST /api/attendance` leaves behind: the appended
row, and the dkp-updated character list when the reward is positive. -/
theorem recordAttendance_ok_eq (s : GuildState) (actor : Auth) (e c : Nat)
    (ev : Event) (ch : Character)
    (he : e ≠ 0) (hc : c ≠ 0)
    (hev : PrismaDatabase.getEventById s e = some ev)
    (hch : PrismaDatabase.getCharacterByIdAdmin s c = some ch)
    (hown : ch.userId = actor.userId)
    (hna : PrismaDatabase.checkAttendanceExists s e c = false) :
    recordAttendance s actor e c =
      (.ok ev.dkpReward,
       { s with
         attendances := s.attendances ++ [⟨e, c⟩],
         characters := if 0 < ev.dkpReward then
             s.characters.map (fun x =>
               if x.id == c then { x with dkp := x.dkp + ev.dkpReward } else x)
           else s.characters }) := by
  have hchar : PrismaDatabase.getCharacterById s c actor.userId = some ch := by
    unfold PrismaDatabase.getCharacterById
    exact find?_of_and _ _ _ _ hch (by simp [hown])
  have hadd : PrismaDatabase.addAttendance s e c =
      .ok { s with attendances := s.attendances ++ [⟨e, c⟩] } := by
    unfold PrismaDatabase.addAttendance
    rw [hna, if_neg (by simp)]
    rw [if_neg (by simp [any_event_of_lookup s.events e ev hev])]
    rw [if_neg (by simp [any_id_of_lookup s.characters c ch hch])]
  have hupd : PrismaDatabase.updateCharacterDkp
      { s with attendances := s.attendances ++ [⟨e, c⟩] } c ev.dkpReward =
      .ok { s with
        attendances := s.attendances ++ [⟨e, c⟩],
        characters := s.characters.map (fun x =>
          if x.id == c then { x with dkp := x.dkp + ev.dkpReward } else x) } := by
    unfold PrismaDatabase.updateCharacterDkp
    rw [if_pos (any_id_of_lookup s.characters c ch hch)]
  show recordAttendanceWith true s actor e c = _
  by_cases hr : 0 < ev.dkpReward
  · simp [recordAttendanceWith, he, hc, hev, hchar, hna, hadd, hupd, hr]
  · simp [recordAttendanceWith, he, hc, hev, hchar, hna, hadd, hupd, hr]

/-- The state a successful `DELETE /api/attendance` leaves behind: the filtered
rows, and the dkp-debited character list when the reward is positive. -/
theorem removeAttendance_ok_eq (s : GuildState) (actor : Auth) (e c : Nat)
    (ev : Event) (ch : Character)
    (he : e ≠ 0) (hc : c ≠ 0)
    (hev : PrismaDatabase.getEventById s e = some ev)
    (hch : PrismaDatabase.getCharacterByIdAdmin s c = some ch)
    (hown : ch.userId = actor.userId)
    (hex : PrismaDatabase.checkAttendanceExists s e c = true) :
    removeAttendance s actor e c =
      (.ok ev.dkpReward,
       { s with
         attendances :=
           s.attendances.filter (fun a => !(a.eventId == e && a.characterId == c)),
         characters := if 0 < ev.dkpReward then
             s.characters.map (fun x =>
               if x.id == c then { x with dkp := x.dkp + -ev.dkpReward } else x)
           else s.characters }) := by
  have hchar : PrismaDatabase.getCharacterById s c actor.userId = some ch := by
    unfold PrismaDatabase.getCharacterById
    exact find?_of_and _ _ _ _ hch (by simp [hown])
  have hrem : PrismaDatabase.removeAttendance s e c =
      (true, { s with attendances :=
        s.attendances.filter (fun a => !(a.eventId == e && a.characterId == c)) }) := by
    unfold PrismaDatabase.removeAttendance
    rw [if_pos hex]
  have hupd : PrismaDatabase.updateCharacterDkp
      { s with attendances :=
        s.attendances.filter (fun a => !(a.eventId == e && a.characterId == c)) }
      c (-ev.dkpReward) =
      .ok { s with
        attendances :=
          s.attendances.filter (fun a => !(a.eventId == e && a.characterId == c)),
        characters := s.characters.map (fun x =>
          if x.id == c then { x with dkp := x.dkp + -ev.dkpReward } else x) } := by
    unfold PrismaDatabase.updateCharacterDkp
    rw [if_pos (any_id_of_lookup s.characters c ch hch)]
  simp only [Bool.not_and] at hrem hupd
  by_cases hr : 0 < ev.dkpReward
  · simp [removeAttendance, he, hc, hev, hchar, hex, hrem, hupd, hr, Bool.not_and]
  · simp [removeAttendance, he, hc, hev, hchar, hex, hrem, hupd, hr, Bool.not_and]

/-- Lookup by id across the conditional credit the record route applies. -/
theorem lookupAdmin_afterCredit (cs : List Character) (cid : Nat) (r : Int) (ch : Character)
    (hch : cs.find? (fun x => x.id == cid) = some ch) (hr : 0 ≤ r) :
    (if 0 < r then
        cs.map (fun x => if x.id == cid then { x with dkp := x.dkp + r } else x)
      else cs).find? (fun x => x.id == cid) = some { ch with dkp := ch.dkp + r } := by
  by_cases h : 0 < r
  · rw [if_pos h, lookupAdmin_updateDkp, hch]
    rfl
  · have hz : r = 0 := le_antisymm (not_lt.mp h) hr
    subst hz
    rw [if_neg h, hch]
    simp

/-- Lookup by id and owner across the conditional credit. -/
theorem lookupOwner_afterCredit (cs : List Character) (cid uid : Nat) (r : Int)
    (ch : Character)
    (hch : cs.find? (fun x => x.id == cid && x.userId == uid) = some ch) (hr : 0 ≤ r) :
    (if 0 < r then
        cs.map (fun x => if x.id == cid then { x with dkp := x.dkp + r } else x)
      else cs).find? (fun x => x.id == cid && x.userId == uid)
      = some { ch with dkp := ch.dkp + r } := by
  by_cases h : 0 < r
  · rw [if_pos h, lookupOwner_updateDkp, hch]
    rfl
  · have hz : r = 0 := le_antisymm (not_lt.mp h) hr
    subst hz
    rw [if_neg h, hch]
    simp

/-- Lookup of a different id across the conditional credit. -/
theorem lookupAdmin_afterCredit_other (cs : List Character) (cid cid' : Nat) (r : Int)
    (hne : cid' ≠ cid) :
    (if 0 < r then
        cs.map (fun x => if x.id == cid then { x with dkp := x.dkp + r } else x)
      else cs).find? (fun x => x.id == cid') = cs.find? (fun x => x.id == cid') := by
  by_cases h : 0 < r
  · rw [if_pos h, lookupAdmin_updateDkp_other _ _ _ _ hne]
  · rw [if_neg h]

/-- The record route's conflict branch: an existing row answers 409 and leaves
the state untouched. -/
theorem recordAttendance_conflict_eq (s : GuildState) (actor : Auth) (e c : Nat)
    (ev : Event)
    (he : e ≠ 0) (hc : c ≠ 0)
    (hev : PrismaDatabase.getEventById s e = some ev)
    (hvis : (PrismaDatabase.getCharacterById s c actor.userId).isSome = true)
    (hex : PrismaDatabase.checkAttendanceExists s e c = true) :
    recordAttendance s actor e c =
      (.conflict "Attendance record already exists for this event and character", s) := by
  show recordAttendanceWith true s actor e c = _
  obtain ⟨ch, hch⟩ := Option.isSome_iff_exists.mp hvis
  simp [recordAttendanceWith, he, hc, hev, hch, hex]

theorem recordRemove_roundtrip_aux (s : GuildState) (actor : Auth) (e c : Nat)
    (ev : Event) (ch : Character)
    (he : e ≠ 0) (hc : c ≠ 0)
    (hev : PrismaDatabase.getEventById s e = some ev)
    (hr : 0 ≤ ev.dkpReward)
    (hch : PrismaDatabase.getCharacterByIdAdmin s c = some ch)
    (hown : ch.userId = actor.userId)
    (hna : PrismaDatabase.checkAttendanceExists s e c = false) :
    ∃ s1 s2,
      recordAttendance s actor e c = (.ok ev.dkpReward, s1) ∧
      PrismaDatabase.getCharacterByIdAdmin s1 c =
        some { ch with dkp := ch.dkp + ev.dkpReward } ∧
      removeAttendance s1 actor e c = (.ok ev.dkpReward, s2) ∧
      PrismaDatabase.getCharacterByIdAdmin s2 c = some ch := by
  have h1 := recordAttendance_ok_eq s actor e c ev ch he hc hev hch hown hna
  have hch1 : PrismaDatabase.getCharacterByIdAdmin
      { s with
        attendances := s.attendances ++ [⟨e, c⟩],
        characters := if 0 < ev.dkpReward then
            s.characters.map (fun x =>
              if x.id == c then { x with dkp := x.dkp + ev.dkpReward } else x)
          else s.characters } c = some { ch with dkp := ch.dkp + ev.dkpReward } :=
    lookupAdmin_afterCredit s.characters c ev.dkpReward ch hch hr
  have hex1 : PrismaDatabase.checkAttendanceExists
      { s with
        attendances := s.attendances ++ [⟨e, c⟩],
        characters := if 0 < ev.dkpReward then
            s.characters.map (fun x =>
              if x.id == c then { x with dkp := x.dkp + ev.dkpReward } else x)
          else s.characters } e c = true := by
    simp [PrismaDatabase.checkAttendanceExists]
  have h2 := removeAttendance_ok_eq
    { s with
      attendances := s.attendances ++ [⟨e, c⟩],
      characters := if 0 < ev.dkpReward then
          s.characters.map (fun x =>
            if x.id == c then { x with dkp := x.dkp + ev.dkpReward } else x)
        else s.characters }
    actor e c ev { ch with dkp := ch.dkp + ev.dkpReward } he hc hev hch1 hown hex1
  refine ⟨_, _, h1, hch1, h2, ?_⟩
  show (if 0 < ev.dkpReward then
      (if 0 < ev.dkpReward then
          s.characters.map (fun x =>
            if x.id == c then { x with dkp := x.dkp + ev.dkpReward } else x)
        else s.characters).map (fun x =>
          if x.id == c then { x with dkp := x.dkp + -ev.dkpReward } else x)
    else (if 0 < ev.dkpReward then
          s.characters.map (fun x =>
            if x.id == c then { x with dkp := x.dkp + ev.dkpReward } else x)
        else s.characters)).find? (fun x => x.id == c) = some ch
  have hchF : List.find? (fun x => x.id == c) s.characters = some ch := hch
  by_cases hgt : 0 < ev.dkpReward
  · rw [if_pos hgt, if_pos hgt, lookupAdmin_updateDkp, lookupAdmin_updateDkp, hchF]
    show some { ch with dkp := ch.dkp + ev.dkpReward + -ev.dkpReward } = some ch
    rw [add_neg_cancel_right]
  · rw [if_neg hgt, if_neg hgt]
    exact hchF

/-- C3: recording attendance and then removing it returns the character's dkp
to its pre-record value when the event's reward is unchanged in between; the
record credits `dkpReward`, the removal debits the same amount. -/
theorem record_then_remove_restores_dkp (s : GuildState) (actor : Auth) (e c : Nat)
    (ev : Event) (ch : Character)
    (he : e ≠ 0) (hc : c ≠ 0)
    (hev : PrismaDatabase.getEventById s e = some ev)
    (hr : 0 ≤ ev.dkpReward)
    (hch : PrismaDatabase.getCharacterByIdAdmin s c = some ch)
    (hown : ch.userId = actor.userId)
    (hna : PrismaDatabase.checkAttendanceExists s e c = false) :
    ∃ s1 s2,
      recordAttendance s actor e c = (.ok ev.dkpReward, s1) ∧
      PrismaDatabase.getCharacterByIdAdmin s1 c =
        some { ch with dkp := ch.dkp + ev.dkpReward } ∧
      removeAttendance s1 actor e c = (.ok ev.dkpReward, s2) ∧
      PrismaDatabase.getCharacterByIdAdmin s2 c = some ch :=
  recordRemove_roundtrip_aux s actor e c ev ch he hc hev hr hch hown hna

/-- C7 (amended): the credit applied by a successful record keeps the balance
non-negative (from a non-negative balance, with the event's non-negative
reward), and the debit applied by the matching removal keeps it non-negative
provided the event's reward is unchanged between the two calls; with a reward
edit in between the debit uses the current reward and the balance can go
negative (see the counterexample). -/
theorem ledger_mutations_nonneg (s : GuildState) (actor : Auth) (e c : Nat)
    (ev : Event) (ch : Character)
    (he : e ≠ 0) (hc : c ≠ 0)
    (hev : PrismaDatabase.getEventById s e = some ev)
    (hr : 0 ≤ ev.dkpReward)
    (hch : PrismaDatabase.getCharacterByIdAdmin s c = some ch)
    (hown : ch.userId = actor.userId)
    (hna : PrismaDatabase.checkAttendanceExists s e c = false)
    (hd : 0 ≤ ch.dkp) :
    ∃ s1 s2,
      recordAttendance s actor e c = (.ok ev.dkpReward, s1) ∧
      (∀ ch1, PrismaDatabase.getCharacterByIdAdmin s1 c = some ch1 → 0 ≤ ch1.dkp) ∧
      removeAttendance s1 actor e c = (.ok ev.dkpReward, s2) ∧
      (∀ ch2, PrismaDatabase.getCharacterByIdAdmin s2 c = some ch2 → 0 ≤ ch2.dkp) := by
  obtain ⟨s1, s2, h1, h2, h3, h4⟩ :=
    recordRemove_roundtrip_aux s actor e c ev ch he hc hev hr hch hown hna
  refine ⟨s1, s2, h1, ?_, h3, ?_⟩
  · intro ch1 hch1
    rw [h2] at hch1
    injection hch1 with hch1
    rw [← hch1]
    exact add_nonneg hd hr
  · intro ch2 hch2
    rw [h4] at hch2
    injection hch2 with hch2
    rw [← hch2]
    exact hd

/-- C9: a successful record changes nothing but the one appended attendance row
and the one character's dkp (by exactly the event's reward): users, events,
items, wishes and every other character's lookup are unchanged. -/
theorem recordAttendance_frame (s : GuildState) (actor : Auth) (e c : Nat)
    (ev : Event) (ch : Character)
    (he : e ≠ 0) (hc : c ≠ 0)
    (hev : PrismaDatabase.getEventById s e = some ev)
    (hr : 0 ≤ ev.dkpReward)
    (hch : PrismaDatabase.getCharacterByIdAdmin s c = some ch)
    (hown : ch.userId = actor.userId)
    (hna : PrismaDatabase.checkAttendanceExists s e c = false) :
    ∃ s1,
      recordAttendance s actor e c = (.ok ev.dkpReward, s1) ∧
      s1.users = s.users ∧ s1.events = s.events ∧ s1.items = s.items ∧
      s1.wishes = s.wishes ∧
      s1.attendances = s.attendances ++ [⟨e, c⟩] ∧
      PrismaDatabase.getCharacterByIdAdmin s1 c =
        some { ch with dkp := ch.dkp + ev.dkpReward } ∧
      ∀ c', c' ≠ c → PrismaDatabase.getCharacterByIdAdmin s1 c' =
        PrismaDatabase.getCharacterByIdAdmin s c' := by
  refine ⟨_, recordAttendance_ok_eq s actor e c ev ch he hc hev hch hown hna,
    rfl, rfl, rfl, rfl, rfl,
    lookupAdmin_afterCredit s.characters c ev.dkpReward ch hch hr, ?_⟩
  intro c' hne
  exact lookupAdmin_afterCredit_other s.characters c c' ev.dkpReward hne

/-- C2: a second record for the same pair answers 409 Conflict and leaves the
state (hence the balance) untouched, so the reward is credited exactly once;
more generally any record against an existing row conflicts without effect. -/
theorem recordAttendance_conflict_idempotent (s : GuildState) (actor : Auth)
    (e c : Nat) (ev : Event) (ch : Character)
    (he : e ≠ 0) (hc : c ≠ 0)
    (hev : PrismaDatabase.getEventById s e = some ev)
    (hr : 0 ≤ ev.dkpReward)
    (hch : PrismaDatabase.getCharacterByIdAdmin s c = some ch)
    (hown : ch.userId = actor.userId)
    (hna : PrismaDatabase.checkAttendanceExists s e c = false) :
    (∀ (t : GuildState) (a : Auth) (e' c' : Nat) (ev' : Event),
      e' ≠ 0 → c' ≠ 0 →
      PrismaDatabase.getEventById t e' = some ev' →
      (PrismaDatabase.getCharacterById t c' a.userId).isSome = true →
      PrismaDatabase.checkAttendanceExists t e' c' = true →
      recordAttendance t a e' c' =
        (.conflict "Attendance record already exists for this event and character", t)) ∧
    ∃ s1,
      recordAttendance s actor e c = (.ok ev.dkpReward, s1) ∧
      recordAttendance s1 actor e c =
        (.conflict "Attendance record already exists for this event and character", s1) ∧
      PrismaDatabase.getCharacterByIdAdmin s1 c =
        some { ch with dkp := ch.dkp + ev.dkpReward } := by
  refine ⟨fun t a e' c' ev' h1 h2 h3 h4 h5 =>
    recordAttendance_conflict_eq t a e' c' ev' h1 h2 h3 h4 h5, ?_⟩
  have hchOwn : List.find? (fun x => x.id == c && x.userId == actor.userId) s.characters
      = some ch :=
    find?_of_and _ _ _ _ hch (by simp [hown])
  have h1 := recordAttendance_ok_eq s actor e c ev ch he hc hev hch hown hna
  have hvis1 : (PrismaDatabase.getCharacterById
      { s with
        attendances := s.attendances ++ [⟨e, c⟩],
        characters := if 0 < ev.dkpReward then
            s.characters.map (fun x =>
              if x.id == c then { x with dkp := x.dkp + ev.dkpReward } else x)
          else s.characters } c actor.userId).isSome = true := by
    show ((if 0 < ev.dkpReward then
        s.characters.map (fun x =>
          if x.id == c then { x with dkp := x.dkp + ev.dkpReward } else x)
      else s.characters).find? (fun x => x.id == c && x.userId == actor.userId)).isSome = true
    rw [lookupOwner_afterCredit s.characters c actor.userId ev.dkpReward ch hchOwn hr]
    rfl
  have hex1 : PrismaDatabase.checkAttendanceExists
      { s with
        attendances := s.attendances ++ [⟨e, c⟩],
        characters := if 0 < ev.dkpReward then
            s.characters.map (fun x =>
              if x.id == c then { x with dkp := x.dkp + ev.dkpReward } else x)
          else s.characters } e c = true := by
    simp [PrismaDatabase.checkAttendanceExists]
  refine ⟨_, h1, recordAttendance_conflict_eq _ actor e c ev he hc hev hvis1 hex1,
    lookupAdmin_afterCredit s.characters c ev.dkpReward ch hch hr⟩

/-- A one-character, one-event store used to evaluate the routes concretely:
character 1 (owner user 10) with dkp 0, event 1 with reward 50. -/
def char1 : Character :=
  { id := 1, userId := 10, name := "Aria", dkp := 0, active := .ACTIVE }

def event1 : Event :=
  { id := 1, title := "Raid", startTime := 0, endTime := 10800000, dkpReward := 50 }

def baseState : GuildState :=
  { users := [], characters := [char1], events := [event1], items := [],
    attendances := [], wishes := [] }

def memberActor : Auth := { userId := 10, role := .MEMBER }

/-- C1: the insert and the credit are two separate database writes with no
transaction around them.  When the `updateCharacterDkp` round trip fails after
`addAttendance` committed, the handler answers 500 and the store is left with
the attendance row present and the character's dkp not credited — exactly the
half-applied state the specification rules out. -/
theorem recordAttendance_not_atomic :
    (recordAttendanceWith false baseState memberActor 1 1).1 =
      .serverError "Failed to record attendance" ∧
    PrismaDatabase.checkAttendanceExists
      (recordAttendanceWith false baseState memberActor 1 1).2 1 1 = true ∧
    PrismaDatabase.getCharacterByIdAdmin
      (recordAttendanceWith false baseState memberActor 1 1).2 1 = some char1 :=
  ⟨rfl, rfl, rfl⟩

/-- C7 counterexample: record attendance at reward 50, raise the event's reward
to 100, remove the attendance: the removal debits the current reward and ends
with dkp = -50 < 0, a core ledger mutation completing on a negative balance. -/
theorem removeAttendance_negative_balance :
    (removeAttendance
      (updateEventRoute (recordAttendance baseState memberActor 1 1).2 1 100).2
      memberActor 1 1).1 = ApiResult.ok 100 ∧
    (PrismaDatabase.getCharacterByIdAdmin
      (removeAttendance
        (updateEventRoute (recordAttendance baseState memberActor 1 1).2 1 100).2
        memberActor 1 1).2 1).map Character.dkp = some (-50) :=
  ⟨rfl, rfl⟩

def adminState : GuildState :=
  { users := [⟨1, .ADMIN⟩], characters := [], events := [], items := [],
    attendances := [], wishes := [] }

def adminActor : Auth := { userId := 1, role := .ADMIN }

/-- Whether a route response is the 409 Conflict outcome. -/
def isConflict {α : Type} : ApiResult α → Bool
  | .conflict _ => true
  | _ => false

/-- C8 counterexample: the self-demotion guard answers 400
("Cannot demote yourself from admin role"), not a 409 Conflict, on both the
role-update route and the demote route. -/
theorem selfDemotion_not_conflict :
    (updateUserRoleRoute adminState adminActor 1 (some .MEMBER)).1 =
      .badRequest "Cannot demote yourself from admin role" ∧
    isConflict (updateUserRoleRoute adminState adminActor 1 (some .MEMBER)).1 = false ∧
    (demoteUserRoute adminState adminActor 1).1 =
      .badRequest "Cannot demote yourself from admin role" ∧
    isConflict (demoteUserRoute adminState adminActor 1).1 = false :=
  ⟨rfl, rfl, rfl, rfl⟩

/-- C8 (amended): an ADMIN actor targeting their own user with a resulting role
below ADMIN is rejected with a 400 invalid-operation outcome — an explicit
error, not a silent no-op — and the state (hence the stored role) is
unchanged, on both the role-update and the demote route. -/
theorem selfDemotion_rejected (s : GuildState) (actor : Auth) (r : Role)
    (ha : actor.role = Role.ADMIN) (hr : r ≠ Role.ADMIN) :
    updateUserRoleRoute s actor actor.userId (some r) =
      (.badRequest "Cannot demote yourself from admin role", s) ∧
    demoteUserRoute s actor actor.userId =
      (.badRequest "Cannot demote yourself from admin role", s) := by
  constructor
  · simp [updateUserRoleRoute, ha, hr]
  · simp [demoteUserRoute, ha]

/-- C10: wish creation for a character whose status is not ACTIVE fails with
the 400 validation error "Only active characters can make wishes" and leaves
the state unchanged (no Wish row inserted); and deactivating a character
(`updateCharacter` setting `active`) never touches the wishes table, so the
restriction applies only at creation and existing wishes remain. -/
theorem postWish_inactive_rejected (s : GuildState) (actor : Auth)
    (cid iid : Nat) (ch : Character)
    (hc : cid ≠ 0) (hi : iid ≠ 0)
    (hch : PrismaDatabase.getCharacterById s cid actor.userId = some ch)
    (hin : ch.active ≠ ActiveStatus.ACTIVE) :
    postWish s actor cid iid =
      (.badRequest "Only active characters can make wishes", s) ∧
    ∀ (t : GuildState) (c u : Nat) (st : ActiveStatus),
      (PrismaDatabase.updateCharacter t c u st).2.wishes = t.wishes := by
  constructor
  · simp [postWish, hc, hi, hch, hin]
  · intro t c u st
    unfold PrismaDatabase.updateCharacter
    split <;> rfl

theorem generateRecurringEvents_length (t : EventData) (rule : Recurrence) :
    (generateRecurringEvents t rule).length = rule.occurrences := by
  simp [generateRecurringEvents]

/-- Closed form of the i-th generated occurrence. -/
theorem generateRecurringEvents_get (t : EventData) (rule : Recurrence)
    (i : Fin (generateRecurringEvents t rule).length) :
    (generateRecurringEvents t rule).get i =
      { title := t.title ++
          (if i.val > 0 then " (Week " ++ toString (i.val + 1) ++ ")" else ""),
        description := t.description,
        startTime := firstOccurrenceStart t rule + i.val * 7 * rule.interval * msPerDay,
        endTime := firstOccurrenceStart t rule + i.val * 7 * rule.interval * msPerDay +
          (t.endTime - t.startTime),
        dkpReward := t.dkpReward } := by
  cases i with
  | mk iv hlt =>
    have hlt' : iv < rule.occurrences := by
      simpa [generateRecurringEvents] using hlt
    simp [generateRecurringEvents, List.get_eq_getElem, List.getElem_map,
      List.getElem_range, hlt']

/-- The first occurrence lands on the requested weekday. -/
theorem getDay_firstOccurrenceStart (t : EventData) (rule : Recurrence)
    (hdow : rule.dayOfWeek ≤ 6) :
    getDay (firstOccurrenceStart t rule) = rule.dayOfWeek := by
  unfold firstOccurrenceStart daysUntilTarget getDay msPerDay
  rw [Nat.add_mul_div_right _ _ (by norm_num : 0 < 86400000)]
  omega

/-- No earlier forward shift lands on the requested weekday. -/
theorem getDay_before_firstOccurrence (t : EventData) (rule : Recurrence)
    (hdow : rule.dayOfWeek ≤ 6)
    (k : Nat) (hk : k < daysUntilTarget t rule) :
    getDay (t.startTime + k * msPerDay) ≠ rule.dayOfWeek := by
  unfold daysUntilTarget at hk
  unfold getDay msPerDay at *
  rw [Nat.add_mul_div_right _ _ (by norm_num : 0 < 86400000)]
  omega

/-- C4: for a valid weekly rule the generator returns exactly `occurrences`
materialized definitions; occurrence 0 starts at the first timestamp on/after
the template's start (a forward shift of 0 to 6 days) whose weekday is
`dayOfWeek`; occurrence i starts exactly `i * interval * 7` days after
occurrence 0 (so consecutive occurrences are `interval * 7` days apart); and
every occurrence keeps the template's duration. -/
theorem generateRecurringEvents_spec (t : EventData) (rule : Recurrence)
    (hdur : t.startTime < t.endTime)
    (hi1 : 1 ≤ rule.interval) (hi2 : rule.interval ≤ 4)
    (hdow : rule.dayOfWeek ≤ 6)
    (ho1 : 1 ≤ rule.occurrences) (ho2 : rule.occurrences ≤ 52) :
    (generateRecurringEvents t rule).length = rule.occurrences ∧
    daysUntilTarget t rule ≤ 6 ∧
    getDay (firstOccurrenceStart t rule) = rule.dayOfWeek ∧
    (∀ k, k < daysUntilTarget t rule →
      getDay (t.startTime + k * msPerDay) ≠ rule.dayOfWeek) ∧
    (∀ i : Fin (generateRecurringEvents t rule).length,
      ((generateRecurringEvents t rule).get i).startTime =
        firstOccurrenceStart t rule + i.val * (rule.interval * 7 * msPerDay)) ∧
    (∀ i j : Fin (generateRecurringEvents t rule).length, j.val = i.val + 1 →
      ((generateRecurringEvents t rule).get j).startTime =
        ((generateRecurringEvents t rule).get i).startTime +
          rule.interval * 7 * msPerDay) ∧
    (∀ i : Fin (generateRecurringEvents t rule).length,
      ((generateRecurringEvents t rule).get i).endTime -
        ((generateRecurringEvents t rule).get i).startTime =
          t.endTime - t.startTime) := by
  refine ⟨generateRecurringEvents_length t rule, ?_, ?_, ?_, ?_, ?_, ?_⟩
  · have : daysUntilTarget t rule < 7 := Nat.mod_lt _ (by norm_num)
    omega
  · exact getDay_firstOccurrenceStart t rule hdow
  · exact fun k hk => getDay_before_firstOccurrence t rule hdow k hk
  · intro i
    rw [generateRecurringEvents_get]
    show firstOccurrenceStart t rule + i.val * 7 * rule.interval * msPerDay = _
    ring
  · intro i j hij
    rw [generateRecurringEvents_get, generateRecurringEvents_get]
    show firstOccurrenceStart t rule + j.val * 7 * rule.interval * msPerDay =
      firstOccurrenceStart t rule + i.val * 7 * rule.interval * msPerDay +
        rule.interval * 7 * msPerDay
    rw [hij]
    ring
  · intro i
    rw [generateRecurringEvents_get]
    show firstOccurrenceStart t rule + i.val * 7 * rule.interval * msPerDay +
        (t.endTime - t.startTime) -
      (firstOccurrenceStart t rule + i.val * 7 * rule.interval * msPerDay) =
        t.endTime - t.startTime
    omega

/-- Each loop iteration of the bulk route contributes exactly one entry, to the
successes or to the failures. -/
theorem bulkStep_len (eventId : Nat) (event : Event)
    (acc : List BulkItemOk × List BulkItemErr × GuildState) (cid : Option Nat) :
    (bulkStep eventId event acc cid).1.length +
      (bulkStep eventId event acc cid).2.1.length
      = acc.1.length + acc.2.1.length + 1 := by
  unfold bulkStep
  rcases cid with _ | c
  · simp
    omega
  · dsimp only
    split
    · simp
      omega
    · split
      · simp
        omega
      · split
        · split
          · simp
            omega
          · simp
            omega
        · simp
          omega

/-- The loop processes every element: entry counts add up along the fold. -/
theorem bulk_foldl_len (eventId : Nat) (event : Event) (ids : List (Option Nat)) :
    ∀ acc : List BulkItemOk × List BulkItemErr × GuildState,
      (ids.foldl (bulkStep eventId event) acc).1.length +
        (ids.foldl (bulkStep eventId event) acc).2.1.length
        = acc.1.length + acc.2.1.length + ids.length := by
  induction ids with
  | nil => intro acc; simp
  | cons a l ih =>
    intro acc
    simp only [List.foldl_cons, List.length_cons]
    rw [ih (bulkStep eventId event acc a), bulkStep_len]
    omega

/-- C5: the bulk route processes each id independently to completion — every
input id contributes exactly one entry to the partition, the reported total is
the input length, and successes plus failures equal the total. -/
theorem recordAttendanceBulk_partition (s : GuildState) (actor : Auth)
    (eventId : Nat) (ids : List (Option Nat)) (ev : Event)
    (hrole : actor.role = Role.OFFICER ∨ actor.role = Role.ADMIN)
    (he : eventId ≠ 0) (hne : ids ≠ [])
    (hev : PrismaDatabase.getEventById s eventId = some ev) :
    ∃ out s1, recordAttendanceBulk s actor eventId ids = (.ok out, s1) ∧
      out.total = ids.length ∧
      out.successful.length + out.failed.length = ids.length := by
  have hrole' : (actor.role != Role.OFFICER && actor.role != Role.ADMIN) = false := by
    rcases hrole with h | h <;> simp [h]
  have hne' : ids.isEmpty = false := by
    cases ids
    · exact absurd rfl hne
    · rfl
  have hmain : recordAttendanceBulk s actor eventId ids =
      (.ok { successful := (ids.foldl (bulkStep eventId ev) ([], [], s)).1,
             failed := (ids.foldl (bulkStep eventId ev) ([], [], s)).2.1,
             total := ids.length },
       (ids.foldl (bulkStep eventId ev) ([], [], s)).2.2) := by
    simp [recordAttendanceBulk, hrole', he, hne', hev]
  refine ⟨_, _, hmain, rfl, ?_⟩
  have h := bulk_foldl_len eventId ev ids ([], [], s)
  simpa using h

/-- C6: the ranked output of `GET /api/wish/item/:itemId` is sorted
non-increasing by the characters' current dkp; each entry's `canAfford` holds
exactly when the character's dkp reaches the item's `minDkpCost`; the
`eligibleWishes` count uses the eligibility predicate, which holds exactly for
affordable ACTIVE characters and is false for every non-ACTIVE character
regardless of balance. -/
theorem rankWishers_sorted_eligible (s : GuildState) (itemId : Nat) (item : Item)
    (hit : PrismaDatabase.getItemById s itemId = some item) :
    ∃ out, rankWishers s itemId = .ok out ∧
      out.wishes.Pairwise (fun a b => b.character.dkp ≤ a.character.dkp) ∧
      (∀ w ∈ out.wishes, w.canAfford = decide (item.minDkpCost ≤ w.character.dkp)) ∧
      out.totalWishes = (PrismaDatabase.getItemWishes s itemId).length ∧
      out.eligibleWishes =
        ((PrismaDatabase.getItemWishes s itemId).filter (eligibleWish item)).length ∧
      (∀ iw : ItemWish, iw.character.active ≠ ActiveStatus.ACTIVE →
        eligibleWish item iw = false) ∧
      (∀ iw : ItemWish, eligibleWish item iw = true ↔
        (item.minDkpCost ≤ iw.character.dkp ∧
          iw.character.active = ActiveStatus.ACTIVE)) := by
  have hmain : rankWishers s itemId = .ok
      { wishes := ((PrismaDatabase.getItemWishes s itemId).mergeSort
          (fun a b => b.character.dkp ≤ a.character.dkp)).map (fun w =>
            { character := w.character, canAfford := item.minDkpCost ≤ w.character.dkp }),
        totalWishes := (PrismaDatabase.getItemWishes s itemId).length,
        eligibleWishes :=
          ((PrismaDatabase.getItemWishes s itemId).filter (eligibleWish item)).length } := by
    unfold rankWishers
    rw [hit]
  refine ⟨_, hmain, ?_, ?_, rfl, rfl, ?_, ?_⟩
  · rw [List.pairwise_map]
    have hs := @List.sorted_mergeSort ItemWish
      (fun a b => decide (b.character.dkp ≤ a.character.dkp))
      (fun a b c hab hbc => by
        simp only [decide_eq_true_eq] at *
        omega)
      (fun a b => by
        simp only [Bool.or_eq_true, decide_eq_true_eq]
        omega)
      (PrismaDatabase.getItemWishes s itemId)
    exact hs.imp (fun h => by simpa using h)
  · rintro w hw
    obtain ⟨x, _, rfl⟩ := List.mem_map.mp hw
    simp
  · intro iw h
    simp [eligibleWish, h]
  · intro iw
    simp [eligibleWish, and_comm]

def officerActor : Auth := { userId := 10, role := .OFFICER }

def char2 : Character :=
  { id := 2, userId := 10, name := "Borin", dkp := 0, active := .ACTIVE }

def char3 : Character :=
  { id := 3, userId := 10, name := "Cale", dkp := 0, active := .ACTIVE }

/-- Bulk scenario store: characters 1, 2, 3; character 2 already attends
event 1. -/
def bulkState : GuildState :=
  { users := [], characters := [char1, char2, char3], events := [event1],
    items := [], attendances := [⟨1, 2⟩], wishes := [] }

def item7 : Item := { id := 7, name := "Sword", minDkpCost := 10 }

def wishChar1 : Character :=
  { id := 1, userId := 10, name := "Aria", dkp := 5, active := .ACTIVE }

def wishChar2 : Character :=
  { id := 2, userId := 10, name := "Borin", dkp := 30, active := .NOT_ACTIVE }

def wishChar3 : Character :=
  { id := 3, userId := 10, name := "Cale", dkp := 20, active := .ACTIVE }

/-- Ranking scenario store: three characters wish for item 7; character 2 is
inactive with the highest balance. -/
def wishState : GuildState :=
  { users := [], characters := [wishChar1, wishChar2, wishChar3], events := [],
    items := [item7], attendances := [], wishes := [⟨1, 7⟩, ⟨2, 7⟩, ⟨3, 7⟩] }

/-- The spec's concrete recurrence scenario: a Monday 2025-10-06 template of
three hours. -/
def mondayTemplate : EventData :=
  { title := "Weekly Raid", description := none, startTime := 1759708800000,
    endTime := 1759719600000, dkpReward := 50 }

def tuesdayRule : Recurrence := { interval := 1, dayOfWeek := 2, occurrences := 3 }

/-- Witness for Claim C2 at the concrete store: record succeeds, the second
record conflicts and leaves the state alone, the balance holds one credit. -/
theorem recordAttendance_conflict_idempotent_witness :
    ∃ s1,
      recordAttendance baseState memberActor 1 1 = (.ok event1.dkpReward, s1) ∧
      recordAttendance s1 memberActor 1 1 =
        (.conflict "Attendance record already exists for this event and character", s1) ∧
      PrismaDatabase.getCharacterByIdAdmin s1 1 =
        some { char1 with dkp := char1.dkp + event1.dkpReward } :=
  (recordAttendance_conflict_idempotent baseState memberActor 1 1 event1 char1
    (by decide) (by decide) rfl (by decide) rfl rfl rfl).2

/-- Witness for Claim C3: event reward 50, character balance 0; the record
takes the balance to 50 and the removal back to 0. -/
theorem record_then_remove_restores_dkp_witness :
    (∃ s1 s2,
      recordAttendance baseState memberActor 1 1 = (.ok event1.dkpReward, s1) ∧
      PrismaDatabase.getCharacterByIdAdmin s1 1 =
        some { char1 with dkp := char1.dkp + event1.dkpReward } ∧
      removeAttendance s1 memberActor 1 1 = (.ok event1.dkpReward, s2) ∧
      PrismaDatabase.getCharacterByIdAdmin s2 1 = some char1) ∧
    (PrismaDatabase.getCharacterByIdAdmin
      (recordAttendance baseState memberActor 1 1).2 1).map Character.dkp = some 50 ∧
    (PrismaDatabase.getCharacterByIdAdmin
      (removeAttendance (recordAttendance baseState memberActor 1 1).2
        memberActor 1 1).2 1).map Character.dkp = some 0 :=
  ⟨record_then_remove_restores_dkp baseState memberActor 1 1 event1 char1
    (by decide) (by decide) rfl (by decide) rfl rfl rfl, rfl, rfl⟩

/-- Witness for Claim C7's amended statement at the concrete store. -/
theorem ledger_mutations_nonneg_witness :
    ∃ s1 s2,
      recordAttendance baseState memberActor 1 1 = (.ok event1.dkpReward, s1) ∧
      (∀ ch1, PrismaDatabase.getCharacterByIdAdmin s1 1 = some ch1 → 0 ≤ ch1.dkp) ∧
      removeAttendance s1 memberActor 1 1 = (.ok event1.dkpReward, s2) ∧
      (∀ ch2, PrismaDatabase.getCharacterByIdAdmin s2 1 = some ch2 → 0 ≤ ch2.dkp) :=
  ledger_mutations_nonneg baseState memberActor 1 1 event1 char1
    (by decide) (by decide) rfl (by decide) rfl rfl rfl (by decide)

/-- Witness for Claim C9 at the concrete store. -/
theorem recordAttendance_frame_witness :
    ∃ s1,
      recordAttendance baseState memberActor 1 1 = (.ok event1.dkpReward, s1) ∧
      s1.users = baseState.users ∧ s1.events = baseState.events ∧
      s1.items = baseState.items ∧ s1.wishes = baseState.wishes ∧
      s1.attendances = baseState.attendances ++ [⟨1, 1⟩] ∧
      PrismaDatabase.getCharacterByIdAdmin s1 1 =
        some { char1 with dkp := char1.dkp + event1.dkpReward } ∧
      ∀ c', c' ≠ 1 → PrismaDatabase.getCharacterByIdAdmin s1 c' =
        PrismaDatabase.getCharacterByIdAdmin baseState c' :=
  recordAttendance_frame baseState memberActor 1 1 event1 char1
    (by decide) (by decide) rfl (by decide) rfl rfl rfl

/-- Witness for Claim C4 at the spec's scenario: the Monday template with a
Tuesday rule yields starts on 2025-10-07, 2025-10-14, 2025-10-21, each three
hours long. -/
theorem generateRecurringEvents_spec_witness :
    getDay mondayTemplate.startTime = 1 ∧
    getDay (firstOccurrenceStart mondayTemplate tuesdayRule) = tuesdayRule.dayOfWeek ∧
    (generateRecurringEvents mondayTemplate tuesdayRule).length = 3 ∧
    (generateRecurringEvents mondayTemplate tuesdayRule).map EventData.startTime =
      [1759795200000, 1760400000000, 1761004800000] ∧
    (generateRecurringEvents mondayTemplate tuesdayRule).map
      (fun ev => ev.endTime - ev.startTime) = [10800000, 10800000, 10800000] :=
  ⟨rfl,
   (generateRecurringEvents_spec mondayTemplate tuesdayRule (by decide) (by decide)
     (by decide) (by decide) (by decide) (by decide)).2.2.1,
   rfl, rfl, rfl⟩

/-- Witness for Claim C5: bulk over characters 1, 2, 3 with character 2
already attending yields 2 successes, 1 failure, total 3, and credits 50 to
characters 1 and 3 only. -/
theorem recordAttendanceBulk_partition_witness :
    (∃ out s1,
      recordAttendanceBulk bulkState officerActor 1 [some 1, some 2, some 3] =
        (.ok out, s1) ∧
      out.total = [some 1, some 2, some 3].length ∧
      out.successful.length + out.failed.length = [some 1, some 2, some 3].length) ∧
    (recordAttendanceBulk bulkState officerActor 1 [some 1, some 2, some 3]).1 =
      .ok { successful := [⟨1, 50⟩, ⟨3, 50⟩],
            failed := [⟨some 2, "Attendance already exists"⟩],
            total := 3 } ∧
    ((recordAttendanceBulk bulkState officerActor 1
        [some 1, some 2, some 3]).2.characters.map Character.dkp) = [50, 0, 50] :=
  ⟨recordAttendanceBulk_partition bulkState officerActor 1 [some 1, some 2, some 3]
    event1 (Or.inl rfl) (by decide) (by decide) rfl, rfl, rfl⟩

/-- Witness for Claim C6 at the concrete store: the ranked list is 30, 20, 5;
the inactive 30-dkp character is affordable yet not eligible, so exactly one
wish is eligible. -/
theorem rankWishers_sorted_eligible_witness :
    (∃ out, rankWishers wishState 7 = .ok out ∧
      out.wishes.Pairwise (fun a b => b.character.dkp ≤ a.character.dkp) ∧
      (∀ w ∈ out.wishes, w.canAfford = decide (item7.minDkpCost ≤ w.character.dkp)) ∧
      out.totalWishes = (PrismaDatabase.getItemWishes wishState 7).length ∧
      out.eligibleWishes =
        ((PrismaDatabase.getItemWishes wishState 7).filter (eligibleWish item7)).length ∧
      (∀ iw : ItemWish, iw.character.active ≠ ActiveStatus.ACTIVE →
        eligibleWish item7 iw = false) ∧
      (∀ iw : ItemWish, eligibleWish item7 iw = true ↔
        (item7.minDkpCost ≤ iw.character.dkp ∧
          iw.character.active = ActiveStatus.ACTIVE))) ∧
    rankWishers wishState 7 = .ok
      { wishes := [⟨wishChar2, true⟩, ⟨wishChar3, true⟩, ⟨wishChar1, false⟩],
        totalWishes := 3, eligibleWishes := 1 } := by
  refine ⟨rankWishers_sorted_eligible wishState 7 item7 rfl, ?_⟩
  simp [rankWishers, PrismaDatabase.getItemWishes, PrismaDatabase.getItemById,
    PrismaDatabase.getCharacterByIdAdmin, wishState, item7, wishChar1, wishChar2,
    wishChar3, List.mergeSort, List.merge, eligibleWish, List.find?, List.filter,
    List.filterMap]
  decide

/-- Witness for Claim C8's amended statement at the concrete store. -/
theorem selfDemotion_rejected_witness :
    updateUserRoleRoute adminState adminActor adminActor.userId (some .MEMBER) =
      (.badRequest "Cannot demote yourself from admin role", adminState) ∧
    demoteUserRoute adminState adminActor adminActor.userId =
      (.badRequest "Cannot demote yourself from admin role", adminState) :=
  selfDemotion_rejected adminState adminActor .MEMBER rfl (by decide)

/-- Witness for Claim C10: the inactive character 2 cannot create a wish, the
store is unchanged, and character updates never touch the wishes table. -/
theorem postWish_inactive_rejected_witness :
    postWish wishState { userId := 10, role := .MEMBER } 2 7 =
      (.badRequest "Only active characters can make wishes", wishState) ∧
    ∀ (t : GuildState) (c u : Nat) (st : ActiveStatus),
      (PrismaDatabase.updateCharacter t c u st).2.wishes = t.wishes :=
  postWish_inactive_rejected wishState { userId := 10, role := .MEMBER } 2 7
    wishChar2 (by decide) (by decide) rfl (by decide)
